import Mathlib

/-!
Verification of the log parsing engine of the SOTAnaplo repository
(src/log2csv.py, with contest.py consulted for the contest exchange rule).

The Python source is shallowly embedded: every regular expression of the
source is hand-compiled into an executable Lean function over the token
text (the compiled form follows the backtracking order of the Python
engine, documented at each definition), Python floats are modelled by
exact decimal fractions compared by cross multiplication (every constant
of the source and every input considered here is an exact decimal), and Python exceptions are modelled by an explicit
error monad.  A LogException of the source is a recoverable error carrying
a message and a position; a NameError, IndexError or ValueError (which
the source can raise from code paths that reference undefined names, from
an out-of-range list access, or from the Contest constructor) is an
uncaught error that escapes parse_input and kills the run.
-/

set_option maxRecDepth 4000

namespace SOTAnaplo

/-! ## Character helpers (Python semantics, ASCII range) -/

/-- Python str.isspace / regex \s restricted to ASCII. -/
def pyIsSpace (c : Char) : Bool :=
  c == ' ' || c == '\t' || c == '\n' || c == '\r' || c == '\x0b' || c == '\x0c'

/-- An ASCII lower-case letter; the case-insensitive classes of the source
are evaluated on the lower-cased token. -/
def lalpha (c : Char) : Bool :=
  'a' ≤ c && c ≤ 'z'

/-- The class [0-9a-z] on a lower-cased token. -/
def lalnum (c : Char) : Bool :=
  lalpha c || c.isDigit

/-- Numeric value of a digit list, as Python int() of the matched group. -/
def natOfDigits (ds : List Char) : Nat :=
  ds.foldl (fun a c => 10 * a + (c.toNat - 48)) 0

/-- Python str.lower of a token, as a character list (ASCII). -/
def lowerData (s : String) : List Char :=
  s.data.map Char.toLower

/-- Python str.upper (ASCII). -/
def pyUpper (s : String) : String :=
  String.mk (s.data.map Char.toUpper)

/-- Python str.lower (ASCII). -/
def pyLower (s : String) : String :=
  String.mk (lowerData s)

/-- Python str.strip for a character list. -/
def pyStrip (cs : List Char) : List Char :=
  ((cs.dropWhile pyIsSpace).reverse.dropWhile pyIsSpace).reverse

/-- Python ' '.join. -/
def joinSpace : List String → String
  | [] => ""
  | [x] => x
  | x :: xs => x ++ " " ++ joinSpace xs

/-! ## Tokenisation

The source splits a QSO line with word.finditer where word = \S+ : the
tokens are the maximal runs of non-whitespace characters, each with its
start offset. -/

def wordsPosAux : List Char → Nat → Option (List Char × Nat) → List (String × Nat)
  | [], _, none => []
  | [], _, some (acc, st) => [(String.mk acc.reverse, st)]
  | c :: cs, i, none =>
      if pyIsSpace c then wordsPosAux cs (i + 1) none
      else wordsPosAux cs (i + 1) (some ([c], i))
  | c :: cs, i, some (acc, st) =>
      if pyIsSpace c then (String.mk acc.reverse, st) :: wordsPosAux cs (i + 1) none
      else wordsPosAux cs (i + 1) (some (c :: acc, st))

/-- All \S+ tokens of a line with their start offsets. -/
def wordsPos (cs : List Char) : List (String × Nat) :=
  wordsPosAux cs 0 none

/-- The source's find_word helper: first word starting at or after `start`,
returned together with the positions before and after the word. -/
def find_word (s : String) (start : Nat) : String × Nat × Nat :=
  let rest := s.data.drop start
  let sp := (rest.takeWhile pyIsSpace).length
  let w := ((rest.drop sp).takeWhile (fun c => !pyIsSpace c))
  (String.mk w, start + sp, start + sp + w.length)

/-! ## The time pattern

time_reg = (?P<hour>0?[0-9]|1[0-9]|2[0-3])?((?(hour)[0-5]|[0-5]?)[0-9])
(fullmatch).  Note the pattern contains no colon.  The hand compilation
below enumerates, by token length, the hour candidates in the engine's
backtracking order (0?[0-9] with greedy 0?, then 1[0-9], then 2[0-3],
then the hour group skipped); with an hour present the minute is exactly
[0-5][0-9], without it the whole token must be [0-5]?[0-9]. -/

def timeMatch (s : String) : Option (Option Nat × Nat) :=
  match s.data with
  | [a] =>
      -- no hour candidate leaves room for the minute: [0-5]?[0-9] with ? empty
      if a.isDigit then some (none, natOfDigits [a]) else none
  | [a, b] =>
      -- every hour candidate leaves fewer than the two minute digits;
      -- the hourless form needs a ≤ 5
      if a.isDigit && b.isDigit && a ≤ '5' then some (none, natOfDigits [a, b]) else none
  | [a, b, c] =>
      -- the 0?[0-9] candidate with 0? empty gives a one-digit hour
      if a.isDigit && b.isDigit && c.isDigit && b ≤ '5' then
        some (some (natOfDigits [a]), natOfDigits [b, c])
      else none
  | [a, b, c, d] =>
      if a.isDigit && b.isDigit && c.isDigit && d.isDigit && c ≤ '5' then
        -- two-digit hours: 0?[0-9] as "0b", or 1[0-9], or 2[0-3]
        if a == '0' then some (some (natOfDigits [b]), natOfDigits [c, d])
        else if a == '1' then some (some (natOfDigits [a, b]), natOfDigits [c, d])
        else if a == '2' && b ≤ '3' then some (some (natOfDigits [a, b]), natOfDigits [c, d])
        else none
      else none
  | _ => none

/-! ## The callsign pattern

call_prefix = (?:(?=.?[a-z])[0-9a-z]{1,2}(?:(?<=3d)a)?)
call = (?:call_prefix[0-9]?/)?call_prefix[0-9][a-z0-9]*(?:/[0-9a-z]+)? , re.I

Only the truth value of fullmatch is used by the source, so the
compilation enumerates every end position each sub-pattern can reach and
asks whether some combination consumes the whole (lower-cased) token. -/

def charAt (cs : List Char) (i : Nat) : Option Char :=
  cs.drop i |>.head?

def alnumAt (cs : List Char) (i : Nat) : Bool :=
  match charAt cs i with
  | some c => lalnum c
  | none => false

/-- The lookahead (?=.?[a-z]) at position i ( . is any char except a newline). -/
def lookA (cs : List Char) (i : Nat) : Bool :=
  (match charAt cs i with
   | some c => lalpha c
   | none => false) ||
  (match charAt cs i, charAt cs (i + 1) with
   | some c0, some c1 => c0 != '\n' && lalpha c1
   | _, _ => false)

/-- End positions of the optional (?:(?<=3d)a) suffix starting at p: the
greedy branch consumes an 'a' when the two characters before p are "3d". -/
def optA (cs : List Char) (p : Nat) : List Nat :=
  if 2 ≤ p && charAt cs (p - 2) == some '3' && charAt cs (p - 1) == some 'd'
      && charAt cs p == some 'a' then
    [p + 1, p]
  else [p]

/-- End positions reachable by call_prefix from position i, in the
engine's preference order ({1,2} greedy: two characters before one). -/
def matchP (cs : List Char) (i : Nat) : List Nat :=
  if lookA cs i then
    (if alnumAt cs i && alnumAt cs (i + 1) then optA cs (i + 2) else []) ++
    (if alnumAt cs i then optA cs (i + 1) else [])
  else []

/-- Does [a-z0-9]*(?:/[0-9a-z]+)? consume exactly the characters cs?
The classes exclude '/', so the star runs to the first '/' if any. -/
def tailCallOk (cs : List Char) : Bool :=
  let a := cs.takeWhile lalnum
  match cs.drop a.length with
  | [] => true
  | '/' :: suf => !suf.isEmpty && suf.all lalnum
  | _ => false

/-- Does call_prefix[0-9][a-z0-9]*(?:/[0-9a-z]+)? starting at j consume
the rest of cs? -/
def callFromBody (cs : List Char) (j : Nat) : Bool :=
  (matchP cs j).any fun k =>
    match charAt cs k with
    | some c => c.isDigit && tailCallOk (cs.drop (k + 1))
    | none => false

/-- End positions of the optional leading (?:call_prefix[0-9]?/) group. -/
def callPfxEnds (cs : List Char) : List Nat :=
  (matchP cs 0).flatMap fun j =>
    let withDigit :=
      match charAt cs j with
      | some c => if c.isDigit then [j + 1] else []
      | none => []
    (withDigit ++ [j]).filterMap fun j2 =>
      if charAt cs j2 == some '/' then some (j2 + 1) else none

/-- call.fullmatch as a boolean, on the lower-cased token. -/
def callMatch (s : String) : Bool :=
  let cs := lowerData s
  (callPfxEnds cs).any (fun j => callFromBody cs j) || callFromBody cs 0

/-! ## The remaining simple patterns -/

/-- sota_ref = [a-z0-9]{1,3}/[a-z]{2}-[0-9]{3} , re.I (fullmatch).
The class before '/' excludes '/', so the split point is the first '/'. -/
def sotaMatch (s : String) : Bool :=
  let cs := lowerData s
  let p := cs.takeWhile (fun c => c != '/')
  match cs.drop p.length with
  | '/' :: rest =>
      (1 ≤ p.length && p.length ≤ 3 && p.all lalnum) &&
      (match rest with
       | [a, b, '-', x, y, z] => lalpha a && lalpha b && x.isDigit && y.isDigit && z.isDigit
       | _ => false)
  | _ => false

/-- date_reg = ([0-9]{4})(?P<sep>[.-])([0-9]{2})(?P=sep)([0-9]{2})
(fullmatch); returns the year, month-position and day-position groups. -/
def dateMatch (s : String) : Option (Nat × Nat × Nat) :=
  match s.data with
  | [y1, y2, y3, y4, s1, m1, m2, s2, d1, d2] =>
      if [y1, y2, y3, y4, m1, m2, d1, d2].all Char.isDigit &&
          (s1 == '.' || s1 == '-') && s2 == s1 then
        some (natOfDigits [y1, y2, y3, y4], natOfDigits [m1, m2], natOfDigits [d1, d2])
      else none
  | _ => none

/-- rst = [1-5][1-9][1-9]? (fullmatch). -/
def rstMatch (s : String) : Bool :=
  match s.data with
  | [a, b] => '1' ≤ a && a ≤ '5' && '1' ≤ b && b ≤ '9'
  | [a, b, c] => '1' ≤ a && a ≤ '5' && '1' ≤ b && b ≤ '9' && '1' ≤ c && c ≤ '9'
  | _ => false

/-- The contest exchange rule of contest.py for the only defined contest
"fd": [0-9]{3,4} (fullmatch). -/
def fdExchange (s : String) : Bool :=
  (s.length == 3 || s.length == 4) && s.data.all Char.isDigit

/-! ## Frequencies -/

/-- freq = ((?:[0-9]+\.)?[0-9]+)([kMG]?Hz|[mc]?m)? (fullmatch, case
sensitive); returns group 1 (the number text) and group 2 (the unit).
The digit runs are maximal: shortening a run by backtracking always
leaves a digit in front of the unit group, which no unit alternative can
consume, so only the maximal runs can complete a full match. -/
def freqUnits : List String := ["Hz", "kHz", "MHz", "GHz", "m", "mm", "cm"]

def freqParse (s : String) : Option (String × Option String) :=
  let cs := s.data
  let d1 := cs.takeWhile Char.isDigit
  if d1.isEmpty then none
  else
    let unitPart : List Char → Option (Option String) := fun rest =>
      if rest.isEmpty then some none
      else if freqUnits.contains (String.mk rest) then some (some (String.mk rest))
      else none
    match cs.drop d1.length with
    | '.' :: r2 =>
        let d2 := r2.takeWhile Char.isDigit
        -- with no digit after the dot the optional group backtracks away,
        -- leaving a remainder that starts with '.', which is not a unit
        if d2.isEmpty then none
        else
          match unitPart (r2.drop d2.length) with
          | some u => some (String.mk (d1 ++ '.' :: d2), u)
          | none => none
    | r1 =>
        match unitPart r1 with
        | some u => some (String.mk d1, u)
        | none => none

/-- Decimal text (digits, optionally dot digits) as the exact fraction
value / 10 ^ scale.  The source compares Python floats; every constant of
the band table and every decimal token compared here is an exact decimal,
which this representation compares exactly (by cross multiplication). -/
def decFrac (s : String) : Nat × Nat :=
  let cs := s.data
  let ip := cs.takeWhile Char.isDigit
  match cs.drop ip.length with
  | '.' :: fp => (natOfDigits (ip ++ fp), fp.length)
  | _ => (natOfDigits ip, 0)

/-- The band table of the source, with the float bounds scaled to
thousandths of a MHz (all bounds have at most three decimals). -/
def bands : List (String × Nat × Nat) :=
  [ ("160m",   (1800, 2000)),
    ("80m",    (3500, 4000)),
    ("40m",    (7000, 7300)),
    ("30m",    (10100, 10150)),
    ("20m",    (14000, 14350)),
    ("17m",    (18068, 18168)),
    ("15m",    (21000, 21450)),
    ("12m",    (24890, 24990)),
    ("10m",    (28000, 29700)),
    ("6m",     (50000, 54000)),
    ("2m",     (144000, 148000)),
    ("1.25m",  (219000, 225000)),
    ("70cm",   (420000, 450000)),
    ("35cm",   (902000, 928000)),
    ("23cm",   (1240000, 1300000)),
    ("13cm",   (2300000, 2450000)),
    ("9cm",    (3400000, 3475000)),
    ("6cm",    (5650000, 5850000)),
    ("3cm",    (10000000, 10500000)),
    ("1.25cm", (24000000, 24250000)),
    ("6mm",    (47000000, 47200000)),
    ("4mm",    (75500000, 81500000)),
    ("2.5mm",  (122250000, 123000000)),
    ("2mm",    (134000000, 141000000)),
    ("1mm",    (241000000, 250000000)) ]

/-- Is the number v / 10 ^ sc inside the band [lo, hi] (bounds in
thousandths)?  Exactly lo / 1000 <= v / 10^sc <= hi / 1000. -/
def inBand (v sc lo hi : Nat) : Bool :=
  lo * 10 ^ sc ≤ v * 1000 && v * 1000 ≤ hi * 10 ^ sc

/-- match_freq of the source.  A returned .ok none is Python's False
(token rejected as a frequency); .error () models the NameError raised on
the lines comparing m.group(2) with the undefined bare names kHz and GHz,
which is reached whenever the unit group matched and the token does not
end in 'm'. -/
def match_freq (s : String) : Except Unit (Option String) :=
  match freqParse s with
  | none => .ok none
  | some (g1, g2) =>
    match g2 with
    | some _ =>
        if (s.data.getLast? == some 'm') then
          -- band-name branch: the token itself must be a key of the table
          if bands.any (fun b => b.1 == s) then .ok (some s) else .ok none
        else
          -- if m.group(2) == kHz : NameError, kHz is not defined
          .error ()
    | none =>
        let n := decFrac g1
        if bands.any (fun b => inBand n.1 n.2 b.2.1 b.2.2) then
          -- mul is still 1.0 on this path, so group 1 is echoed with MHz
          .ok (some (g1 ++ "MHz"))
        else .ok none

/-- The mode vocabulary of QSO.__init__. -/
def modeMatch (s : String) : Option String :=
  let l := pyLower s
  if l == "cw" || l == "ssb" || l == "fm" || l == "am" then some (pyUpper s)
  else if l == "data" || l == "psk" || l == "psk31" || l == "psk63" ||
      l == "rtty" || l == "fsk441" || l == "jt65" then some "Data"
  else if l == "other" then some "Other"
  else none

/-! ## Errors

LogException(message, pos) is recoverable (caught by parse_input);
NameError / ValueError escape parse_input and crash the program. -/

inductive PErr where
  | log (msg : String) (pos : Nat)
  | uncaught
deriving DecidableEq, Repr

/-! ## The classifier of QSO.__init__

For each token the source fills a dict with every field kind the token
satisfies inside its positional window; an absent dict key is modelled by
a none field. -/

structure Kinds where
  time : Option (Option Nat × Nat) := none
  call : Option String := none
  freq : Option String := none
  mode : Option String := none
  rst : Option String := none
  exch : Option String := none
  sota : Option String := none
deriving DecidableEq, Repr

structure TokInfo where
  text : String
  start : Nat
  kinds : Kinds
deriving DecidableEq, Repr

def tokDefault : TokInfo := ⟨"", 0, {}⟩

/-- One token's kind dict; the frequency test can raise the NameError of
match_freq. -/
def classify (ex : Option (String → Bool)) (i : Nat) (txt : String) :
    Except Unit Kinds := do
  let fr ← if i < 3 then match_freq txt else pure none
  pure
    { time := if i < 1 then timeMatch txt else none
      call := if i < 2 && callMatch txt then some (pyUpper txt) else none
      freq := fr
      mode := if i < 4 then modeMatch txt else none
      rst := if i < 6 && rstMatch txt then some txt else none
      sota := if sotaMatch txt then some (pyUpper txt) else none
      exch :=
        match ex with
        | some f => if i < 7 && f txt then some txt else none
        | none => none }

def classifyAll (ex : Option (String → Bool)) (ws : List (String × Nat)) :
    Except Unit (List TokInfo) :=
  ws.enum.mapM fun p => (classify ex p.1 p.2.1).map fun k => ⟨p.2.1, p.2.2, k⟩

/-- typeorder of the source; the two report slots share the dict key. -/
def typeorder : List String := ["time", "call", "freq", "mode", "rst", "rst", "exch", "sota"]

/-- Membership of a typeorder key in a token's kind dict. -/
def Kinds.has (k : Kinds) (name : String) : Bool :=
  match name with
  | "time" => k.time.isSome
  | "call" => k.call.isSome
  | "freq" => k.freq.isSome
  | "mode" => k.mode.isSome
  | "rst" => k.rst.isSome
  | "exch" => k.exch.isSome
  | "sota" => k.sota.isSome
  | _ => false

/-! ## The slot assigner -/

/-- First slot index e with start ≤ e < 8 whose typeorder key is in the
token's dict (the inner for-loop of the greedy pass). -/
def findSlot (k : Kinds) (start : Nat) : Option Nat :=
  (List.range' start (8 - start)).find? fun e => k.has (typeorder.getD e "")

/-- The greedy pass.  Returns the slot list, noteselem (the boundary for
free-text notes: the index of the first token that fits no remaining
slot, or the initial value 7 when every token was consumed) and the final
value of the classification loop's variable i.  That variable is
overwritten by the backward pass loop before the minimum-change gate
reads it, so the third component is kept only to mirror the source's
loop structure and is unused by the resolver. -/
def greedyGo : List TokInfo → Nat → Nat → List (Option TokInfo) →
    List (Option TokInfo) × Nat × Nat
  | [], i, _, wl => (wl, 7, i - 1)
  | w :: rest, i, nxt, wl =>
      match findSlot w.kinds nxt with
      | some e => greedyGo rest (i + 1) (e + 1) (wl.set e (some w))
      | none => (wl, i, i)

def greedy (words : List TokInfo) : List (Option TokInfo) × Nat × Nat :=
  greedyGo words 0 0 (List.replicate 8 none)

/-- One iteration of the backward reassignment loop at target slot i:
first, if slot i is empty and the most recently collected token also
carries the kind of slot i, move it there and vacate its old slot; then,
if the (new) most recent collected entry sits at slot i itself, discard
it. -/
def backpassStep (acc : List (Option TokInfo) × List (Nat × TokInfo)) (i : Nat) :
    List (Option TokInfo) × List (Nat × TokInfo) :=
  let (wl, fe) := acc
  let (wl, fe) :=
    match fe.getLast? with
    | some (j, w) =>
        if (wl.getD i none).isNone && w.kinds.has (typeorder.getD i "") then
          ((wl.set i (some w)).set j none, fe.dropLast)
        else (wl, fe)
    | none => (wl, fe)
  match fe.getLast? with
  | some (j, _) => if j = i then (wl, fe.dropLast) else (wl, fe)
  | none => (wl, fe)

/-- felist of the source: the occupied entries of wlist[2:6] with their
slot indices. -/
def felistOf (wl : List (Option TokInfo)) : List (Nat × TokInfo) :=
  [2, 3, 4, 5].filterMap fun j => (wl.getD j none).map fun w => (j, w)

/-- The backward reassignment pass of the source: for i in range(6,3,-1),
i.e. target slots 6 (exchange), 5 (received report), 4 (sent report). -/
def backpass (wl : List (Option TokInfo)) : List (Option TokInfo) :=
  ([6, 5, 4].foldl backpassStep (wl, felistOf wl)).1

/-- Tokenise, classify and run both assignment passes; .error () is the
NameError escaping from match_freq.  Returns the classified tokens, the
slot list after the backward pass, noteselem and the last loop index. -/
def slotsOf (s : String) (ex : Option (String → Bool)) :
    Except Unit (List TokInfo × List (Option TokInfo) × Nat × Nat) := do
  let words ← classifyAll ex (wordsPos s.data)
  let (wl0, noteselem, lasti) := greedy words
  pure (words, backpass wl0, noteselem, lasti)

/-! ## The record resolver -/

structure QSO where
  time : Nat × Nat
  callsign : String
  freq : String
  mode : String
  sent : String
  rcvd : String
  exch : Option String
  ref : Option String
  notes : String
  day : Nat
deriving DecidableEq, Repr

/-- Time resolution: an assigned token with an explicit hour is taken as
is; a bare minute inherits the previous hour, incremented (24 wrapping to
0) when the new minute is smaller than the previous one; no token at all
reuses the previous pair; without a previous record the time is a hard
requirement. -/
def resolveTime (slot : Option TokInfo) (prev : Option QSO) : Except PErr (Nat × Nat) :=
  match slot with
  | some w =>
      match w.kinds.time.getD (none, 0) with
      | (some h, mn) => .ok (h, mn)
      | (none, mn) =>
          match prev with
          | none => .error (.log "Missing time value" 0)
          | some p =>
              if mn < p.time.2 then
                let hour := p.time.1 + 1
                .ok (if hour = 24 then 0 else hour, mn)
              else .ok (p.time.1, mn)
  | none =>
      match prev with
      | none => .error (.log "Missing time value" 0)
      | some p => .ok p.time

def resolveCall (slot : Option TokInfo) (prev : Option QSO) : Except PErr String :=
  match slot with
  | some w => .ok (w.kinds.call.getD "")
  | none =>
      match prev with
      | none => .error (.log "Missing callsign" 0)
      | some p => .ok p.callsign

def resolveFreq (slot : Option TokInfo) (prev : Option QSO) : Except PErr String :=
  match slot with
  | some w => .ok (w.kinds.freq.getD "")
  | none =>
      match prev with
      | none => .error (.log "Missing frequency" 0)
      | some p => .ok p.freq

def resolveMode (slot : Option TokInfo) (prev : Option QSO) : Except PErr String :=
  match slot with
  | some w => .ok (w.kinds.mode.getD "")
  | none =>
      match prev with
      | none => .error (.log "Missing mode" 0)
      | some p => .ok p.mode

/-- Report resolution: an empty slot takes the mode-dependent default; an
assigned token must have the default's length, else the source raises
"Invalid RST for this mode". -/
def resolveRst (defRst : String) (slot : Option TokInfo) : Except PErr String :=
  match slot with
  | none => .ok defRst
  | some w =>
      let r := w.kinds.rst.getD ""
      if r.length ≠ defRst.length then .error (.log "Invalid RST for this mode" 0)
      else .ok r

/-- The day adjustment, reproducing the source expression verbatim:
prev.time[0] * 60 + prev.time[1] > self.time[0] * self.time[1]
(note the missing * 60 + on the right hand side); the first record of an
activation gets day 0. -/
def dayOf (prev : Option QSO) (tm : Nat × Nat) : Nat :=
  match prev with
  | some p => if p.time.1 * 60 + p.time.2 > tm.1 * tm.2 then p.day + 1 else p.day
  | none => 0

/-- The field resolution phase of QSO.__init__, after the minimum-change
gate. -/
def resolveQSO (words : List TokInfo) (wl : List (Option TokInfo)) (noteselem : Nat)
    (prev : Option QSO) : Except PErr QSO :=
  match resolveTime (wl.getD 0 none) prev with
  | .error e => .error e
  | .ok tm =>
  match resolveCall (wl.getD 1 none) prev with
  | .error e => .error e
  | .ok cs =>
  match resolveFreq (wl.getD 2 none) prev with
  | .error e => .error e
  | .ok fq =>
  match resolveMode (wl.getD 3 none) prev with
  | .error e => .error e
  | .ok md =>
  let defRst := if md = "CW" ∨ md = "Data" then "599" else "59"
  match resolveRst defRst (wl.getD 4 none) with
  | .error e => .error e
  | .ok sent =>
  match resolveRst defRst (wl.getD 5 none) with
  | .error e => .error e
  | .ok rcvd =>
    .ok { time := tm
          callsign := cs
          freq := fq
          mode := md
          sent := sent
          rcvd := rcvd
          exch := (wl.getD 6 none).map fun w => w.kinds.exch.getD ""
          ref := (wl.getD 7 none).map fun w => w.kinds.sota.getD ""
          notes :=
            if noteselem < words.length then joinSpace ((words.drop noteselem).map (·.text))
            else ""
          day := dayOf prev tm }

/-- The error raised by the minimum-change gate.  The source raises
LogException("Invalid change from previous QSO", words[i][1]) where i is
the loop variable left over from the backward pass loop
for i in range(6,3,-1) - that loop always runs, so i is 4 at this point
(the classification loop's i was overwritten).  With at most four tokens
on the line, evaluating words[4][1] raises an uncaught IndexError before
any LogException is constructed; with five or more, the position is the
fifth token's offset. -/
def invalidChangeErr (words : List TokInfo) : PErr :=
  match words[4]? with
  | some w => .log "Invalid change from previous QSO" w.start
  | none => .uncaught

/-- QSO.__init__: tokenise, classify, assign, gate, resolve. -/
def qsoInit (s : String) (prev : Option QSO) (ex : Option (String → Bool)) :
    Except PErr QSO :=
  if (wordsPos s.data).isEmpty then .error (.log "Empty QSO" 0)
  else
    match slotsOf s ex with
    | .error () => .error .uncaught
    | .ok (words, wl, noteselem, _) =>
        if (wl.getD 1 none).isNone && (wl.getD 2 none).isNone && (wl.getD 3 none).isNone then
          .error (invalidChangeErr words)
        else resolveQSO words wl noteselem prev

/-! ## Activation headers -/

/-- Python datetime.date validity: year 1..9999, month 1..12, day within
the month. -/
def isLeap (y : Nat) : Bool :=
  y % 4 == 0 && (y % 100 != 0 || y % 400 == 0)

def daysInMonth (y m : Nat) : Nat :=
  if m == 2 then (if isLeap y then 29 else 28)
  else if m == 4 || m == 6 || m == 9 || m == 11 then 30
  else 31

def dateValid (y m d : Nat) : Bool :=
  1 ≤ y && y ≤ 9999 && 1 ≤ m && m ≤ 12 && 1 ≤ d && d ≤ daysInMonth y m

/-- An activation or chase.  The back-reference to the previous
activation of the source is used only by the printer (out of the
embedded core) and for header inheritance, which here receives the
previous activation as an argument instead. -/
structure Activation where
  callsign : String
  date : Nat × Nat × Nat
  ref : String
  contest : Option String
  notes : String
  qsos : List QSO
deriving DecidableEq, Repr

/-- Word-character test of regex \w (ASCII range). -/
def wordChar (c : Char) : Bool :=
  c.isAlphanum || c == '_'

/-- contest.search on the notes: the pattern contest:(\w+)\s* at the
leftmost position where it matches; returns (start, name, end). -/
def contestSearchAux : List Char → Nat → Option (Nat × String × Nat)
  | [], _ => none
  | c :: rest, i =>
      match ("contest:".data).isPrefixOf? (c :: rest) with
      | some after =>
          let nm := after.takeWhile wordChar
          if nm.isEmpty then contestSearchAux rest (i + 1)
          else
            let ws := (after.drop nm.length).takeWhile pyIsSpace
            some (i, String.mk nm, i + 8 + nm.length + ws.length)
      | none => contestSearchAux rest (i + 1)

/-- The callsign and date stages of Activation.__init__: both fields may
be inherited from the previous activation; the result carries the
resolved callsign and date together with the word the scan stopped on
(the SOTA-reference candidate) and its positions. -/
def actHead (s : String) (prev : Option Activation) :
    Except PErr (String × (Nat × Nat × Nat) × String × Nat × Nat) :=
  let (w, pos, e) := find_word s 0
  let step1 : Except PErr (String × String × Nat × Nat) :=
    if callMatch w then
      let (w2, pos2, e2) := find_word s e
      .ok (pyUpper w, w2, pos2, e2)
    else
      match prev with
      | some p => .ok (p.callsign, w, pos, e)
      | none => .error (.log "Error in activation definition, missing callsign" pos)
  match step1 with
  | .error err => .error err
  | .ok (cs, w2, pos2, e2) =>
      match dateMatch w2 with
      | some (y, mo, d) =>
          if dateValid y mo d then
            let (w3, pos3, e3) := find_word s e2
            .ok (cs, (y, mo, d), w3, pos3, e3)
          else .error (.log "Error in activation definition, invalid date format" pos2)
      | none =>
          match prev with
          | some p => .ok (cs, p.date, w2, pos2, e2)
          | none => .error (.log "Error in activation definition, missing date" pos2)

/-- The tail of Activation.__init__ after the reference was accepted:
the remaining text is stripped into the notes, a contest marker is cut
out of them, and the Contest constructor accepts only the name "fd",
raising a ValueError (uncaught by parse_input) for every other name. -/
def activationFinish (s : String) (cs : String) (dt : Nat × Nat × Nat) (ref : String)
    (e : Nat) : Except PErr Activation :=
  let notes0 := pyStrip (s.data.drop e)
  match contestSearchAux notes0 0 with
  | some (st, nm, en) =>
      if nm = "fd" then
        .ok { callsign := cs, date := dt, ref := ref, contest := some nm,
              notes := String.mk (notes0.take st ++ notes0.drop en), qsos := [] }
      else .error .uncaught
  | none =>
      .ok { callsign := cs, date := dt, ref := ref, contest := none,
            notes := String.mk notes0, qsos := [] }

/-- Activation.__init__.  The SOTA reference is never inherited: the word
after the (possibly inherited) callsign and date must itself match the
reference grammar, or be the literal *, else a LogException is raised. -/
def activationInit (s : String) (prev : Option Activation) : Except PErr Activation :=
  match actHead s prev with
  | .error err => .error err
  | .ok (cs, dt, w, pos, e) =>
      if sotaMatch w then activationFinish s cs dt (pyUpper w) e
      else if w = "*" then activationFinish s cs dt "" e
      else .error (.log "Error in activation definition, invalid SOTA reference detected" pos)

/-- Activation.add_qso: the last stored QSO is the previous one; when a
contest is configured its exchange rule (for the only defined contest,
the fd rule) is passed to the QSO resolver. -/
def add_qso (a : Activation) (s : String) : Except PErr Activation :=
  match qsoInit s a.qsos.getLast? (a.contest.map fun _ => fdExchange) with
  | .ok q => .ok { a with qsos := a.qsos ++ [q] }
  | .error e => .error e

/-! ## The section state machine (parse_input) -/

structure PState where
  comment_line : Bool
  blank_line : Bool
  possible_blank_line : Bool
  activation : Option Activation
  errors : List (Nat × String × String × Nat)
  cnt : Nat
deriving DecidableEq, Repr

def initPState : PState :=
  { comment_line := false, blank_line := false, possible_blank_line := false,
    activation := none, errors := [], cnt := 0 }

/-- line.partition on the comment marker: text before the first marker
and whether a marker is present. -/
def partitionHash : List Char → List Char × Bool
  | [] => ([], false)
  | c :: cs =>
      if c = '#' then ([], true)
      else
        let (p, f) := partitionHash cs
        (c :: p, f)

/-- The body executed for a normal (non-blank, non-comment-only) line:
when a blank line is pending or no activation is open the line is a
header, else a contact line; a LogException is recorded with the line
number, message, stripped text and position, an uncaught error escapes. -/
def normalStep (st : PState) (s : String) : Except Unit PState :=
  if st.blank_line || st.activation.isNone then
    match activationInit s st.activation with
    | .ok a => .ok { st with activation := some a, blank_line := false }
    | .error (.log m p) => .ok { st with errors := st.errors ++ [(st.cnt, m, s, p)] }
    | .error .uncaught => .error ()
  else
    match st.activation with
    | some a =>
        match add_qso a s with
        | .ok a2 => .ok { st with activation := some a2 }
        | .error (.log m p) => .ok { st with errors := st.errors ++ [(st.cnt, m, s, p)] }
        | .error .uncaught => .error ()
    | none => .ok st

/-- One iteration of the line loop of parse_input. -/
def lineStep (st : PState) (line : String) : Except Unit PState :=
  let st := { st with cnt := st.cnt + 1 }
  let sStr := pyStrip (partitionHash line.data).1
  if sStr.isEmpty then
    if (partitionHash line.data).2 then
      .ok { st with possible_blank_line := false, comment_line := true }
    else if (match st.activation with
             | some a => !a.qsos.isEmpty
             | none => false) then
      if st.comment_line then
        .ok { st with possible_blank_line := true, comment_line := false }
      else .ok { st with blank_line := true }
    else .ok st
  else
    let st := { st with comment_line := false }
    let st :=
      if st.possible_blank_line then
        { st with blank_line := true, possible_blank_line := false }
      else st
    normalStep st (String.mk sStr)

/-- parse_input over a list of input lines; .error () is a program crash
(an uncaught NameError / ValueError). -/
def parse_input (lines : List String) : Except Unit PState :=
  lines.foldlM lineStep initPState

/-- The output contract of parse_input: when any error was collected the
errors are printed on stderr and no activation is printed. -/
def normalOutput (st : PState) : Option Activation :=
  if st.errors.isEmpty then st.activation else none

/-! ## Spec-side models used for comparison (refinement claims) -/

/-- Does the token held in slot j also match the kind of some later
slot? -/
def matchesLaterKind (j : Nat) (w : TokInfo) : Bool :=
  (List.range' (j + 1) (8 - (j + 1))).any fun e => w.kinds.has (typeorder.getD e "")

/-- Modelled from the claim's words, for comparison with backpass: the
collected tokens are exactly those assigned to the Freq, Mode, RstSent or
RstRcvd slots that also match a later kind, and the empty target slots
are visited walking from RstRcvd (5) down to Mode (3). -/
def backpassClaim (wl : List (Option TokInfo)) : List (Option TokInfo) :=
  let fe := [2, 3, 4, 5].filterMap fun j =>
    (wl.getD j none).bind fun w => if matchesLaterKind j w then some (j, w) else none
  ([5, 4, 3].foldl backpassStep (wl, fe)).1

/-- One target visit of the amended backward pass, working on a stack of
collected slots held most recent first: if the target slot i is empty and
the most recently collected token also satisfies the target's kind, move
it there and vacate its old slot; afterwards, a collected entry whose own
slot is the target is discarded from consideration. -/
def amendedStep (i : Nat) (acc : List (Option TokInfo) × List (Nat × TokInfo)) :
    List (Option TokInfo) × List (Nat × TokInfo) :=
  let (wl, stack) := acc
  let (wl, stack) :=
    match stack with
    | (j, w) :: rest =>
        if (wl.getD i none).isNone && w.kinds.has (typeorder.getD i "") then
          ((wl.set i (some w)).set j none, rest)
        else (wl, (j, w) :: rest)
    | [] => (wl, [])
  match stack with
  | top :: rest => if top.1 = i then (wl, rest) else (wl, top :: rest)
  | [] => (wl, [])

def backpassAmendedGo : List Nat → List (Option TokInfo) → List (Nat × TokInfo) →
    List (Option TokInfo)
  | [], wl, _ => wl
  | i :: is, wl, stack =>
      let (wl2, stack2) := amendedStep i (wl, stack)
      backpassAmendedGo is wl2 stack2

/-- The amended description of the backward reassignment pass: collect
every token assigned to slots Freq..RstRcvd (most recent on top of the
stack) and visit the target slots walking from Exchange (6) down to
RstSent (4). -/
def backpassAmended (wl : List (Option TokInfo)) : List (Option TokInfo) :=
  backpassAmendedGo [6, 5, 4] wl (felistOf wl).reverse

/-! ## Concrete fixtures used by the claim theorems -/

/-- A previously resolved record at 10:30 with default reports. -/
def prevStd : QSO :=
  { time := (10, 30), callsign := "W1ABC", freq := "14.250MHz", mode := "CW",
    sent := "599", rcvd := "599", exch := none, ref := none, notes := "", day := 0 }

/-- A previously resolved record carrying the non-default reports 579. -/
def prevRst579 : QSO :=
  { time := (10, 30), callsign := "W1ABC", freq := "14.250MHz", mode := "CW",
    sent := "579", rcvd := "579", exch := none, ref := none, notes := "", day := 0 }

/-- An open activation holding one resolved record. -/
def actStd : Activation :=
  { callsign := "W1ABC", date := (2019, 7, 1), ref := "AB/CD-001", contest := none,
    notes := "", qsos := [prevStd] }

/-- A parser state in the middle of that activation's contact lines. -/
def stStd : PState :=
  { comment_line := false, blank_line := false, possible_blank_line := false,
    activation := some actStd, errors := [], cnt := 3 }

/-- The record resolved from "1403 W1ABC 14.250 CW 599 588" with no
previous record. -/
def qsoFull : QSO :=
  { time := (14, 3), callsign := "W1ABC", freq := "14.250MHz", mode := "CW",
    sent := "599", rcvd := "588", exch := none, ref := none, notes := "", day := 0 }

/-- The slot list produced by the greedy pass (before the backward pass)
for the line "1403 w1abc 579 599" under the fd contest exchange rule. -/
def wlC4 : List (Option TokInfo) :=
  match classifyAll (some fdExchange) (wordsPos "1403 w1abc 579 599".data) with
  | .ok ws => (greedy ws).1
  | .error _ => []

/-- The classified tokens of the line "1035 w1abc". -/
def t1035 : TokInfo := ⟨"1035", 0, { time := some (some 10, 35) }⟩
def tW1abc : TokInfo := ⟨"w1abc", 5, { call := some "W1ABC" }⟩

def c3Words : List TokInfo := [t1035, tW1abc]
def c3Slots : List (Option TokInfo) :=
  [some t1035, some tW1abc, none, none, none, none, none, none]

/-- The record resolved from "1035 w1abc" against prevRst579 (day 1 by
the rollover comparison of the source). -/
def qC3res : QSO :=
  { time := (10, 35), callsign := "W1ABC", freq := "14.250MHz", mode := "CW",
    sent := "599", rcvd := "599", exch := none, ref := none, notes := "", day := 1 }

/-- The records and final state of the recoverable-failure stream used
for C9: header, one good contact line, one line with a bad report
length (collected), one more good contact line. -/
def qsoLine2 : QSO :=
  { time := (14, 3), callsign := "W1ABC", freq := "14.250MHz", mode := "CW",
    sent := "599", rcvd := "599", exch := none, ref := none, notes := "", day := 0 }

def qsoLine4 : QSO :=
  { time := (14, 5), callsign := "G4AAA", freq := "14.250MHz", mode := "CW",
    sent := "599", rcvd := "599", exch := none, ref := none, notes := "", day := 1 }

def actC9 : Activation :=
  { callsign := "W1ABC", date := (2019, 7, 1), ref := "AB/CD-001", contest := none,
    notes := "", qsos := [qsoLine2, qsoLine4] }

def stC9 : PState :=
  { comment_line := false, blank_line := false, possible_blank_line := false,
    activation := some actC9,
    errors := [(3, "Invalid RST for this mode", "1404 g4bbb 59", 0)], cnt := 4 }

/-! ## Claim theorems -/

/-- C1.  The claim states the day counter follows the comparison of
hour*60+minute on both sides, and in particular that a bare minute
greater than or equal to the previous minute within the same hour never
changes the day counter.  The code instead evaluates
prev.time[0] * 60 + prev.time[1] > self.time[0] * self.time[1]
(a multiplication on the right), so a bare minute 40 following 10:30
keeps the hour, yet increments the day counter: 630 > 10 * 40 = 400. -/
theorem c1_day_rollover_bug :
    qsoInit "40 w1abc" (some prevStd) none =
      Except.ok { time := (10, 40), callsign := "W1ABC", freq := "14.250MHz", mode := "CW",
                  sent := "599", rcvd := "599", exch := none, ref := none, notes := "",
                  day := 1 } ∧
    prevStd.time = (10, 30) ∧ prevStd.day = 0 := by
  exact ⟨rfl, rfl, rfl⟩

/-- C2.  The claim (like the source's own docstring) has
"14:03 W1ABC 14.250 CW 599 588" resolve with Time=(14,3); but time_reg
contains no colon, so "14:03" matches no field kind at all and the line
is rejected as an invalid change (reported at offset 22, the start of
the fifth token "599", since the gate reads the leaked loop index 4).
Without the colon the line resolves exactly to the claimed field values,
confirming the rest of the claim. -/
theorem c2_time_colon_bug :
    timeMatch "14:03" = none ∧
    qsoInit "14:03 W1ABC 14.250 CW 599 588" none none =
      Except.error (PErr.log "Invalid change from previous QSO" 22) ∧
    qsoInit "1403 W1ABC 14.250 CW 599 588" none none = Except.ok qsoFull ∧
    qsoFull.time = (14, 3) ∧ qsoFull.callsign = "W1ABC" ∧ qsoFull.freq = "14.250MHz" ∧
    qsoFull.mode = "CW" ∧ qsoFull.sent = "599" ∧ qsoFull.rcvd = "588" ∧
    qsoFull.notes = "" := by
  exact ⟨rfl, rfl, rfl, rfl, rfl, rfl, rfl, rfl, rfl, rfl⟩

/-- C3 counterexample.  The previous record carries the reports 579; the
line "1035 w1abc" omits both reports, and the resolved record holds the
mode default 599, not the inherited 579 — refuting the claim that every
omitted trailing field equals the previous record's value. -/
theorem c3_rst_not_inherited :
    qsoInit "1035 w1abc" (some prevRst579) none =
      Except.ok { time := (10, 35), callsign := "W1ABC", freq := "14.250MHz", mode := "CW",
                  sent := "599", rcvd := "599", exch := none, ref := none, notes := "",
                  day := 1 } ∧
    prevRst579.sent = "579" ∧ ("599" : String) ≠ "579" := by
  refine ⟨rfl, rfl, ?_⟩
  decide

/-- C5.  The claim states the frequency recogniser is total on token
text, including tokens with a Hz/kHz/MHz/GHz unit suffix; but the source
compares the unit group with the undefined bare names kHz and GHz, so
every such token raises a NameError.  Unit-less tokens and band names
still work. -/
theorem c5_match_freq_name_error :
    match_freq "14.250MHz" = Except.error () ∧
    match_freq "14Hz" = Except.error () ∧
    match_freq "3kHz" = Except.error () ∧
    match_freq "14.250" = Except.ok (some "14.250MHz") ∧
    match_freq "40m" = Except.ok (some "40m") ∧
    match_freq "hello" = Except.ok none := by
  exact ⟨rfl, rfl, rfl, rfl, rfl, rfl⟩

/-- C4 counterexample.  For the line "1403 w1abc 579 599" under the fd
exchange rule, the greedy pass leaves 579 in RstSent and 599 in RstRcvd
with the Exchange slot empty; the source's backward pass then moves 599
into slot 6 (Exchange) — a target the claim excludes, since it walks only
from RstRcvd down to Mode — and the pass the claim describes leaves the
slots unchanged. -/
theorem c4_backpass_targets :
    wlC4.getD 6 none = none ∧
    (backpass wlC4).getD 6 none = wlC4.getD 5 none ∧
    ((backpass wlC4).getD 6 none).isSome = true ∧
    backpassClaim wlC4 ≠ backpass wlC4 := by
  refine ⟨rfl, rfl, rfl, ?_⟩
  decide

/-- C6 counterexample.  In a state with no pending blank line and an open
activation with a recorded contact, a comment-only line leaves
possible_blank_line false (it sets comment_line instead); the claim says
such a line sets possible_blank_line whenever no real blank line
preceded. -/
theorem c6_comment_line_flag :
    stStd.blank_line = false ∧ stStd.possible_blank_line = false ∧
    lineStep stStd "# note" =
      Except.ok { comment_line := true, blank_line := false, possible_blank_line := false,
                  activation := some actStd, errors := [], cnt := 4 } := by
  exact ⟨rfl, rfl, rfl⟩

/-- One visit of the amended pass on a reversed collected list agrees
with one iteration of the source's loop. -/
lemma amendedStep_rev (i : Nat) (wl : List (Option TokInfo)) (fe : List (Nat × TokInfo)) :
    amendedStep i (wl, fe.reverse) =
      ((backpassStep (wl, fe) i).1, (backpassStep (wl, fe) i).2.reverse) := by
  rcases List.eq_nil_or_concat fe with h | ⟨L, b, h⟩
  · subst h; rfl
  · subst h
    obtain ⟨j, w⟩ := b
    simp only [List.concat_eq_append, amendedStep, backpassStep, List.getLast?_concat,
      List.dropLast_concat, List.reverse_append, List.reverse_cons, List.reverse_nil,
      List.nil_append, List.singleton_append]
    by_cases hC : ((wl.getD i none).isNone && w.kinds.has (typeorder.getD i "")) = true
    · simp only [if_pos hC]
      rcases List.eq_nil_or_concat L with hL | ⟨L2, b2, hL⟩
      · subst hL; rfl
      · subst hL
        obtain ⟨j2, w2⟩ := b2
        simp only [List.concat_eq_append, List.getLast?_concat, List.dropLast_concat,
          List.reverse_append, List.reverse_cons, List.reverse_nil, List.nil_append,
          List.singleton_append]
        by_cases hj2 : j2 = i
        · simp [hj2]
        · simp [hj2]
    · simp only [if_neg hC]
      by_cases hj : j = i
      · simp [hj]
      · simp [hj]

lemma backpassGo_rev :
    ∀ (ts : List Nat) (wl : List (Option TokInfo)) (fe : List (Nat × TokInfo)),
      backpassAmendedGo ts wl fe.reverse = (ts.foldl backpassStep (wl, fe)).1 := by
  intro ts
  induction ts with
  | nil => intro wl fe; rfl
  | cons i is ih =>
      intro wl fe
      rw [backpassAmendedGo, amendedStep_rev, List.foldl_cons]
      exact ih (backpassStep (wl, fe) i).1 (backpassStep (wl, fe) i).2

/-- C4 amended.  The backward reassignment pass collects every token
assigned to the Freq..RstRcvd slots (most recent on top of the stack) and
visits the empty target slots walking from Exchange (6) down to RstSent
(4), moving the most recently collected token into the target when it
satisfies the target's kind, and discarding a collected token from
consideration once the walk reaches its own slot: the source's pass
computes exactly this. -/
theorem c4_backpass_amended : ∀ wl : List (Option TokInfo), backpass wl = backpassAmended wl := by
  intro wl
  unfold backpass backpassAmended
  exact (backpassGo_rev [6, 5, 4] wl (felistOf wl)).symm

lemma resolveRst_ok_length {d : String} {slot : Option TokInfo} {r : String}
    (h : resolveRst d slot = Except.ok r) : r.length = d.length := by
  cases slot with
  | none =>
      simp only [resolveRst] at h
      injection h with h
      subst h
      rfl
  | some w =>
      simp only [resolveRst] at h
      split at h
      · exact Except.noConfusion h
      · next hne =>
          injection h with h
          subst h
          omega

lemma resolveQSO_ok_cases {words : List TokInfo} {wl : List (Option TokInfo)} {ne : Nat}
    {prev : Option QSO} {q : QSO} (h : resolveQSO words wl ne prev = Except.ok q) :
    ∃ tm cs fq md sent rcvd,
      resolveTime (wl.getD 0 none) prev = Except.ok tm ∧
      resolveCall (wl.getD 1 none) prev = Except.ok cs ∧
      resolveFreq (wl.getD 2 none) prev = Except.ok fq ∧
      resolveMode (wl.getD 3 none) prev = Except.ok md ∧
      resolveRst (if md = "CW" ∨ md = "Data" then "599" else "59") (wl.getD 4 none) =
        Except.ok sent ∧
      resolveRst (if md = "CW" ∨ md = "Data" then "599" else "59") (wl.getD 5 none) =
        Except.ok rcvd ∧
      q = { time := tm, callsign := cs, freq := fq, mode := md, sent := sent, rcvd := rcvd,
            exch := (wl.getD 6 none).map fun w => w.kinds.exch.getD "",
            ref := (wl.getD 7 none).map fun w => w.kinds.sota.getD "",
            notes := if ne < words.length then joinSpace ((words.drop ne).map (·.text)) else "",
            day := dayOf prev tm } := by
  unfold resolveQSO at h
  cases h0 : resolveTime (wl.getD 0 none) prev with
  | error e => rw [h0] at h; exact Except.noConfusion h
  | ok tm =>
  simp only [h0] at h
  cases h1 : resolveCall (wl.getD 1 none) prev with
  | error e => rw [h1] at h; exact Except.noConfusion h
  | ok cs =>
  simp only [h1] at h
  cases h2 : resolveFreq (wl.getD 2 none) prev with
  | error e => rw [h2] at h; exact Except.noConfusion h
  | ok fq =>
  simp only [h2] at h
  cases h3 : resolveMode (wl.getD 3 none) prev with
  | error e => rw [h3] at h; exact Except.noConfusion h
  | ok md =>
  simp only [h3] at h
  cases h4 : resolveRst (if md = "CW" ∨ md = "Data" then "599" else "59") (wl.getD 4 none) with
  | error e => rw [h4] at h; exact Except.noConfusion h
  | ok sent =>
  simp only [h4] at h
  cases h5 : resolveRst (if md = "CW" ∨ md = "Data" then "599" else "59") (wl.getD 5 none) with
  | error e => rw [h5] at h; exact Except.noConfusion h
  | ok rcvd =>
  simp only [h5] at h
  injection h with h
  exact ⟨tm, cs, fq, md, sent, rcvd, rfl, rfl, rfl, rfl, h4, h5, h.symm⟩

lemma qsoInit_ok_resolve {s : String} {prev : Option QSO} {ex : Option (String → Bool)}
    {q : QSO} {words : List TokInfo} {wl : List (Option TokInfo)} {ne li : Nat}
    (h1 : qsoInit s prev ex = Except.ok q)
    (h2 : slotsOf s ex = Except.ok (words, wl, ne, li)) :
    resolveQSO words wl ne prev = Except.ok q := by
  unfold qsoInit at h1
  split at h1
  · exact Except.noConfusion h1
  · rw [h2] at h1
    simp only [] at h1
    split at h1
    · exact Except.noConfusion h1
    · exact h1

/-- C3 amended.  When a previous record exists and the line resolves,
the omitted callsign, frequency and mode are inherited from the previous
record; an omitted report slot is set to the mode-dependent default (599
for CW and Data, else 59) regardless of the previous record's reports;
and an omitted exchange or SOTA reference is left absent rather than
inherited.  Time and the day counter follow their own rules. -/
theorem c3_inheritance_amended :
    ∀ (s : String) (ex : Option (String → Bool)) (p q : QSO) (words : List TokInfo)
      (wl : List (Option TokInfo)) (ne li : Nat),
      qsoInit s (some p) ex = Except.ok q →
      slotsOf s ex = Except.ok (words, wl, ne, li) →
      (wl.getD 1 none = none → q.callsign = p.callsign) ∧
      (wl.getD 2 none = none → q.freq = p.freq) ∧
      (wl.getD 3 none = none → q.mode = p.mode) ∧
      (wl.getD 4 none = none → q.sent = if q.mode = "CW" ∨ q.mode = "Data" then "599" else "59") ∧
      (wl.getD 5 none = none → q.rcvd = if q.mode = "CW" ∨ q.mode = "Data" then "599" else "59") ∧
      (wl.getD 6 none = none → q.exch = none) ∧
      (wl.getD 7 none = none → q.ref = none) := by
  intro s ex p q words wl ne li h1 h2
  obtain ⟨tm, cs, fq, md, sent, rcvd, ht, hc, hf, hm, h4, h5, hq⟩ :=
    resolveQSO_ok_cases (qsoInit_ok_resolve h1 h2)
  subst hq
  refine ⟨?_, ?_, ?_, ?_, ?_, ?_, ?_⟩ <;> intro hslot
  · rw [hslot] at hc
    simp only [resolveCall] at hc
    injection hc with hc
    exact hc.symm
  · rw [hslot] at hf
    simp only [resolveFreq] at hf
    injection hf with hf
    exact hf.symm
  · rw [hslot] at hm
    simp only [resolveMode] at hm
    injection hm with hm
    exact hm.symm
  · rw [hslot] at h4
    simp only [resolveRst] at h4
    injection h4 with h4
    exact h4.symm
  · rw [hslot] at h5
    simp only [resolveRst] at h5
    injection h5 with h5
    exact h5.symm
  · rw [hslot]
    rfl
  · rw [hslot]
    rfl

lemma qsoInit_ok_slots {s : String} {prev : Option QSO} {ex : Option (String → Bool)}
    {q : QSO} (h : qsoInit s prev ex = Except.ok q) :
    ∃ words wl ne li, slotsOf s ex = Except.ok (words, wl, ne, li) ∧
      resolveQSO words wl ne prev = Except.ok q := by
  unfold qsoInit at h
  split at h
  · exact Except.noConfusion h
  · cases hs : slotsOf s ex with
    | error e => rw [hs] at h; exact Except.noConfusion h
    | ok v =>
        obtain ⟨words, wl, ne, li⟩ := v
        rw [hs] at h
        simp only [] at h
        split at h
        · exact Except.noConfusion h
        · exact ⟨words, wl, ne, li, rfl, h⟩

/-- C8.  Every successfully resolved record satisfies the report length
invariant: rst_sent and rst_rcvd have length 3 exactly when the resolved
mode is CW or Data and length 2 otherwise — an empty report slot takes
the mode-dependent default and an assigned token of the wrong length is
rejected with the invalid-report error, so no resolved record violates
the rule. -/
theorem c8_rst_length_invariant :
    ∀ (s : String) (prev : Option QSO) (ex : Option (String → Bool)) (q : QSO),
      qsoInit s prev ex = Except.ok q →
      q.sent.length = (if q.mode = "CW" ∨ q.mode = "Data" then 3 else 2) ∧
      q.rcvd.length = (if q.mode = "CW" ∨ q.mode = "Data" then 3 else 2) := by
  intro s prev ex q h
  obtain ⟨words, wl, ne, li, hs, hr⟩ := qsoInit_ok_slots h
  obtain ⟨tm, cs, fq, md, sent, rcvd, ht, hc, hf, hm, h4, h5, hq⟩ := resolveQSO_ok_cases hr
  subst hq
  have l4 := resolveRst_ok_length h4
  have l5 := resolveRst_ok_length h5
  constructor
  · show sent.length = if md = "CW" ∨ md = "Data" then 3 else 2
    by_cases hmd : md = "CW" ∨ md = "Data"
    · rw [if_pos hmd] at l4 ⊢
      simpa using l4
    · rw [if_neg hmd] at l4 ⊢
      simpa using l4
  · show rcvd.length = if md = "CW" ∨ md = "Data" then 3 else 2
    by_cases hmd : md = "CW" ∨ md = "Data"
    · rw [if_pos hmd] at l5 ⊢
      simpa using l5
    · rw [if_neg hmd] at l5 ⊢
      simpa using l5

/-- C6 amended.  A comment-only line clears possible_blank_line and sets
comment_line; a genuinely empty line, once at least one contact is
recorded in the open activation, sets possible_blank_line (clearing
comment_line) when the preceding relevant line was a comment-only line,
and blank_line otherwise; and a pending possible_blank_line is promoted
to blank_line when a normal line arrives, before that line is consumed. -/
theorem c6_state_machine_amended :
    ∀ (st : PState) (line : String),
      (pyStrip (partitionHash line.data).1 = [] → (partitionHash line.data).2 = true →
        lineStep st line =
          Except.ok { st with cnt := st.cnt + 1, possible_blank_line := false,
                              comment_line := true }) ∧
      (pyStrip (partitionHash line.data).1 = [] → (partitionHash line.data).2 = false →
        (∃ a, st.activation = some a ∧ a.qsos ≠ []) →
        lineStep st line =
          (if st.comment_line then
            Except.ok { st with cnt := st.cnt + 1, possible_blank_line := true,
                                comment_line := false }
          else Except.ok { st with cnt := st.cnt + 1, blank_line := true })) ∧
      (pyStrip (partitionHash line.data).1 ≠ [] → st.possible_blank_line = true →
        lineStep st line =
          normalStep
            { st with cnt := st.cnt + 1, comment_line := false, blank_line := true,
                      possible_blank_line := false }
            (String.mk (pyStrip (partitionHash line.data).1))) := by
  intro st line
  refine ⟨?_, ?_, ?_⟩
  · intro h1 h2
    unfold lineStep
    rw [h1, h2]
    rfl
  · intro h1 h2 h3
    obtain ⟨a, ha, hq⟩ := h3
    unfold lineStep
    rw [h1, h2, ha]
    have : a.qsos.isEmpty = false := by
      cases hqq : a.qsos with
      | nil => exact absurd hqq hq
      | cons x xs => rfl
    simp only [this]
    cases hcl : st.comment_line with
    | true => simp [hcl]
    | false => simp [hcl]
  · intro h1 h2
    unfold lineStep
    dsimp only
    have : (pyStrip (partitionHash line.data).1).isEmpty = false := by
      cases hpp : pyStrip (partitionHash line.data).1 with
      | nil => exact absurd hpp h1
      | cons x xs => rfl
    rw [this, h2]
    rfl

/-- C7.  The claim says a line whose Call, Freq and Mode slots are all
unassigned after both passes fails with a recoverable InvalidChange
error.  The gate instead evaluates words[i][1] with i left at 4 by the
backward pass loop: the spec's own example, an RST pair alone following
a valid record, has only two tokens and crashes with an uncaught
IndexError before any LogException is constructed; with five or more
tokens the LogException is raised, but at the fifth token's offset. -/
theorem c7_invalid_change_crash :
    qsoInit "599 588" (some prevStd) none = Except.error PErr.uncaught ∧
    qsoInit "599 588 599 588 599" (some prevStd) none =
      Except.error (PErr.log "Invalid change from previous QSO" 16) :=
  ⟨rfl, rfl⟩

/-- C9.  The claim says line-level failures are collected with position
context and never stop the scan.  A contact line rejected by the
minimum-change gate with at most four tokens instead raises an uncaught
IndexError: the run dies mid-stream, the remaining lines are never
scanned and nothing is collected or reported.  For the failure classes
that do raise a LogException the designed behaviour holds: the second
stream collects the bad-report failure, still resolves the following
line against the last successful record, and the collected error
suppresses the normal output. -/
theorem c9_scan_crash :
    parse_input ["w1abc 2019-07-01 ab/cd-001", "1403 w1abc 14.250 cw",
                 "599 588", "1405 g4aaa"] = Except.error () ∧
    parse_input ["w1abc 2019-07-01 ab/cd-001", "1403 w1abc 14.250 cw",
                 "1404 g4bbb 59", "1405 g4aaa"] = Except.ok stC9 ∧
    stC9.errors ≠ [] ∧ normalOutput stC9 = none ∧ stC9.cnt = 4 :=
  ⟨rfl, rfl, by decide, rfl, rfl⟩

/-- The tail of the header constructor stores exactly the reference it
was given. -/
lemma activationFinish_ok_ref {s cs : String} {dt : Nat × Nat × Nat} {r : String} {e : Nat}
    {a : Activation} (h : activationFinish s cs dt r e = Except.ok a) : a.ref = r := by
  unfold activationFinish at h
  dsimp only at h
  split at h
  · split at h
    · injection h with h; subst h; rfl
    · exact Except.noConfusion h
  · injection h with h; subst h; rfl

/-- C10.  The SOTA reference of a header is never inherited: a header
only constructs when the scanned reference word itself matches the
reference grammar (stored uppercased) or is the literal asterisk (stored
as the empty string, a chase); any other word fails with the
invalid-reference error even when a previous activation exists. -/
theorem c10_sota_ref_explicit :
    ∀ (s : String) (prev : Option Activation),
      (∀ (cs : String) (dt : Nat × Nat × Nat) (w : String) (p e : Nat),
        actHead s prev = Except.ok (cs, dt, w, p, e) → sotaMatch w = false → w ≠ "*" →
        activationInit s prev =
          Except.error
            (PErr.log "Error in activation definition, invalid SOTA reference detected" p)) ∧
      (∀ a, activationInit s prev = Except.ok a →
        ∃ cs dt w p e, actHead s prev = Except.ok (cs, dt, w, p, e) ∧
          ((sotaMatch w = true ∧ a.ref = pyUpper w) ∨ (w = "*" ∧ a.ref = ""))) := by
  intro s prev
  constructor
  · intro cs dt w p e hh hsm hw
    unfold activationInit
    rw [hh]
    simp only [hsm, Bool.false_eq_true, if_false]
    rw [if_neg hw]
  · intro a ha
    unfold activationInit at ha
    cases hh : actHead s prev with
    | error err => rw [hh] at ha; exact Except.noConfusion ha
    | ok v =>
        obtain ⟨cs, dt, w, p, e⟩ := v
        rw [hh] at ha
        simp only [] at ha
        cases hsm : sotaMatch w with
        | true =>
            rw [hsm] at ha
            simp only [if_true] at ha
            exact ⟨cs, dt, w, p, e, rfl, Or.inl ⟨hsm, activationFinish_ok_ref ha⟩⟩
        | false =>
            rw [hsm] at ha
            simp only [Bool.false_eq_true, if_false] at ha
            by_cases hw : w = "*"
            · rw [if_pos hw] at ha
              exact ⟨cs, dt, w, p, e, rfl, Or.inr ⟨hw, activationFinish_ok_ref ha⟩⟩
            · rw [if_neg hw] at ha
              exact Except.noConfusion ha

/-- C3 witness: the line "1035 w1abc" against prevRst579 omits slots 2-7
and the amended inheritance rules hold there. -/
theorem c3_inheritance_amended_witness :
    qsoInit "1035 w1abc" (some prevRst579) none = Except.ok qC3res ∧
    slotsOf "1035 w1abc" none = Except.ok (c3Words, c3Slots, 7, 1) ∧
    ((c3Slots.getD 1 none = none → qC3res.callsign = prevRst579.callsign) ∧
     (c3Slots.getD 2 none = none → qC3res.freq = prevRst579.freq) ∧
     (c3Slots.getD 3 none = none → qC3res.mode = prevRst579.mode) ∧
     (c3Slots.getD 4 none = none →
       qC3res.sent = if qC3res.mode = "CW" ∨ qC3res.mode = "Data" then "599" else "59") ∧
     (c3Slots.getD 5 none = none →
       qC3res.rcvd = if qC3res.mode = "CW" ∨ qC3res.mode = "Data" then "599" else "59") ∧
     (c3Slots.getD 6 none = none → qC3res.exch = none) ∧
     (c3Slots.getD 7 none = none → qC3res.ref = none)) :=
  ⟨rfl, rfl,
    c3_inheritance_amended "1035 w1abc" none prevRst579 qC3res c3Words c3Slots 7 1 rfl rfl⟩

/-- C6 witness: a comment-only line in the middle of an activation. -/
theorem c6_state_machine_amended_witness :
    pyStrip (partitionHash ("# hello" : String).data).1 = [] ∧
    (partitionHash ("# hello" : String).data).2 = true ∧
    lineStep stStd "# hello" =
      Except.ok { comment_line := true, blank_line := false, possible_blank_line := false,
                  activation := some actStd, errors := [], cnt := 4 } :=
  ⟨rfl, rfl, (c6_state_machine_amended stStd "# hello").1 rfl rfl⟩

/-- C8 witness: the fully resolved CW record has two length-3 reports. -/
theorem c8_rst_length_invariant_witness :
    qsoInit "1403 W1ABC 14.250 CW 599 588" none none = Except.ok qsoFull ∧
    qsoFull.sent.length = (if qsoFull.mode = "CW" ∨ qsoFull.mode = "Data" then 3 else 2) ∧
    qsoFull.rcvd.length = (if qsoFull.mode = "CW" ∨ qsoFull.mode = "Data" then 3 else 2) :=
  ⟨rfl, c8_rst_length_invariant "1403 W1ABC 14.250 CW 599 588" none none qsoFull rfl⟩

/-- C10 witness: a header whose third word is no reference, with a
previous activation available, still fails. -/
theorem c10_sota_ref_explicit_witness :
    actHead "g4abc 2020-03-03 zz" (some actStd) =
      Except.ok ("G4ABC", (2020, 3, 3), "zz", 17, 19) ∧
    sotaMatch "zz" = false ∧ ("zz" : String) ≠ "*" ∧
    activationInit "g4abc 2020-03-03 zz" (some actStd) =
      Except.error
        (PErr.log "Error in activation definition, invalid SOTA reference detected" 17) :=
  ⟨rfl, rfl, by decide,
    (c10_sota_ref_explicit "g4abc 2020-03-03 zz" (some actStd)).1
      "G4ABC" (2020, 3, 3) "zz" 17 19 rfl rfl (by decide)⟩

end SOTAnaplo
